import Mathlib

/-!
Shallow embedding of `run.py` (analytics dashboard orchestrator) and proofs
about its text-generation gateway, analytics data collector, and chat loop.

External effects (HTTP requests, subprocess spawns, MCP tool calls) are
modelled as explicit behaviour parameters: each interaction point is a value
of an `Except`/outcome type describing what the external world returned or
which exception it raised.  Python `raise`/`except` is modelled with
`Except String`.
-/

set_option autoImplicit false

namespace UmamiDash

/-- Python truthiness of an optional string (`if not x` on `Optional[str]`):
`None` and the empty string are falsy, every other string is truthy. -/
def pyTruthy : Option String → Bool
  | none => false
  | some s => !(s == "")

/-- Model of Python `str.strip()` (an external library function): drop leading and
trailing whitespace characters. -/
def pyStrip (s : String) : String :=
  ⟨((s.data.dropWhile Char.isWhitespace).reverse.dropWhile Char.isWhitespace).reverse⟩

/-- Model of Python `str.lower()` (an external library function): lowercase every
character. -/
def pyLower (s : String) : String :=
  ⟨s.data.map Char.toLower⟩

/-- The two hosted-backend configuration secrets read from the environment in
`setup_ai_clients` (`os.environ.get` yields `None` when a variable is absent). -/
structure AIConfig where
  CLOUDFLARE_ACCOUNT_ID : Option String
  CLOUDFLARE_API_TOKEN : Option String

/-- Model of the HTTP response the Cloudflare endpoint returns: the status
code, the body text used in the non-200 error message, the decoded JSON
envelope's `success` flag, the textual rendering of the envelope used in the
API-error message, and the `result.response` field. -/
structure CFResponse where
  status : Nat
  errorText : String
  success : Bool
  bodyRepr : String
  response : String

/-- The exact message of the `ValueError` raised by `call_cloudflare_ai` when
a hosted-backend secret is missing. -/
def missingSecretsMsg : String :=
  "Missing CLOUDFLARE_ACCOUNT_ID or CLOUDFLARE_API_TOKEN environment variables"

/-- Embedding of `call_cloudflare_ai`.  `net` is the network behaviour: for a
given prompt, either the request raises (`.error`) or an HTTP response comes
back.  Mirrors the source: missing/falsy secrets raise a `ValueError` first;
then a non-200 status raises; then a false `success` flag raises; otherwise
the stripped response text is returned. -/
def call_cloudflare_ai (cfg : AIConfig) (net : String → Except String CFResponse)
    (prompt : String) : Except String String :=
  if !pyTruthy cfg.CLOUDFLARE_ACCOUNT_ID || !pyTruthy cfg.CLOUDFLARE_API_TOKEN then
    Except.error missingSecretsMsg
  else
    match net prompt with
    | Except.error e => Except.error e
    | Except.ok r =>
      if r.status ≠ 200 then
        Except.error ("Cloudflare AI error (" ++ toString r.status ++ "): " ++ r.errorText)
      else if !r.success then
        Except.error ("Cloudflare AI API error: " ++ r.bodyRepr)
      else
        Except.ok (pyStrip r.response)

/-- Outcome of spawning the `ollama` subprocess: the executable may be
missing (`FileNotFoundError`), or the process exits with a return code,
stdout and stderr. -/
inductive OllamaOutcome where
  | notFound
  | exited (returncode : Int) (stdout : String) (stderr : String)

/-- Embedding of `call_ollama_fallback`: a missing executable raises, a
non-zero exit raises with stderr in the message, otherwise stripped stdout is
returned. -/
def call_ollama_fallback (oll : String → OllamaOutcome) (prompt : String) :
    Except String String :=
  match oll prompt with
  | OllamaOutcome.notFound => Except.error "Ollama is not installed or not in PATH"
  | OllamaOutcome.exited rc out err =>
    if rc ≠ 0 then Except.error ("Ollama error: " ++ err)
    else Except.ok (pyStrip out)

/-- Embedding of `call_ai_with_fallback` (the gateway `generate`): try the
hosted backend; on any exception (`except Exception`) try ollama; if that
also raises, raise the aggregated `RuntimeError`. -/
def call_ai_with_fallback (cfg : AIConfig) (net : String → Except String CFResponse)
    (oll : String → OllamaOutcome) (prompt : String) : Except String (String × String) :=
  match call_cloudflare_ai cfg net prompt with
  | Except.ok response => Except.ok (response, "cloudflare")
  | Except.error cf_error =>
    match call_ollama_fallback oll prompt with
    | Except.ok response => Except.ok (response, "ollama")
    | Except.error ollama_error =>
      Except.error ("Both AI services failed. Cloudflare: " ++ cf_error ++
        ", Ollama: " ++ ollama_error)

/-! ## Analytics data collector -/

/-- One record of the websites list inside the JSON envelope: `website.get("domain")`
and `website.get("id")` may each be absent (`None`). -/
structure WebsiteRecord where
  domain : Option String
  id : Option String
deriving DecidableEq, Repr

/-- The decoded websites JSON object; `websites_json.get("data", [])` defaults the
`data` array to the empty list when the field is absent. -/
structure WebsitesJson where
  data : Option (List WebsiteRecord)
deriving DecidableEq, Repr

/-- Model of the string held by a content item's `text` attribute, as seen through
`json.loads` (an external library, modelled by its outcome): either the string is
not valid JSON (`json.loads` raises `JSONDecodeError`), or it decodes to a
websites envelope. -/
inductive JsonText where
  | invalid (raw : String)
  | websites (j : WebsitesJson)
deriving DecidableEq, Repr

/-- One element of a tool result's `content` sequence: it may or may not expose a
`text` attribute (`hasattr(websites_content, "text")`). -/
structure ContentItem where
  text : Option JsonText
deriving DecidableEq, Repr

/-- Tool-call result content: a sequence of content items. -/
abbrev ToolContent := List ContentItem

/-- Values stored in the analytics snapshot dict. -/
inductive Val where
  | str (s : String)
  | content (c : ToolContent)
  | tools (ts : List String)
deriving DecidableEq, Repr

/-- The snapshot dict, kept as the append-only association list of its insertions
(every key is inserted at most once along any execution path, so association-list
first-match lookup agrees with Python dict lookup). -/
abbrev Snapshot := List (String × Val)

/-- Argument map passed to `session.call_tool`. -/
abbrev Args := List (String × String)

/-- One recorded `call_tool` invocation (tool name and argument map); the collector
is instrumented with a trace of these so that claims about which calls are and are
not attempted can be stated. -/
abbrev ToolCall := String × Args

/-- Behaviour of the MCP client session: `list_tools` and each `call_tool`
invocation either raises or returns its result. -/
structure Session where
  list_tools : Except String (List String)
  call_tool : String → Args → Except String ToolContent

/-- The scan inside `get_website_id_from_domain`:
`for website in data: if website.get("domain") == domain: return website.get("id")`.
Note that the first matching record wins and its possibly-absent `id` is returned
without further scanning. -/
def findId : List WebsiteRecord → String → Option String
  | [], _ => none
  | w :: rest, domain =>
    if w.domain = some domain then w.id else findId rest domain

/-- Embedding of `get_website_id_from_domain`: the content must be a non-empty
list whose first element has a `text` attribute holding JSON that decodes; then
the `data` array (defaulted to `[]`) is scanned for the domain.  All failure
modes (empty list, no `text` attribute, `JSONDecodeError`) yield `None`, matching
the guarded/`except` paths of the source. -/
def get_website_id_from_domain (websites_data : ToolContent) (domain : String) :
    Option String :=
  match websites_data with
  | [] => none
  | first :: _ =>
    match first.text with
    | none => none
    | some (JsonText.invalid _) => none
    | some (JsonText.websites j) => findId (j.data.getD []) domain

/-- Key membership in a snapshot. -/
def hasKey (d : Snapshot) (k : String) : Bool :=
  d.any fun p => p.1 == k

/-- First-match lookup in a snapshot (Python `dict.get`; keys are unique along
every execution path). -/
def lookupVal (d : Snapshot) (k : String) : Option Val :=
  (d.find? fun p => p.1 == k).map (·.2)

/-- The metric types tried by the collector, in source order. -/
def metric_types : List String :=
  ["url", "referrer", "browser", "os", "device", "country"]

/-- The argument map of a `get_website_metrics` call for one metric type. -/
def metricsArgs (website_id start_date end_date metric_type : String) : Args :=
  [("website_id", website_id), ("start_at", start_date), ("end_at", end_date),
   ("type", metric_type)]

/-- The `for metric_type in [...]` loop of the collector: try each type in order,
`break` on the first success, `continue` on each per-type exception.  Returns the
first successful (type, content) if any, plus the trace of attempted calls. -/
def try_metrics (sess : Session) (website_id start_date end_date : String) :
    List String → Option (String × ToolContent) × List ToolCall
  | [] => (none, [])
  | t :: rest =>
    match sess.call_tool "get_website_metrics" (metricsArgs website_id start_date end_date t) with
    | Except.ok c =>
      (some (t, c), [("get_website_metrics", metricsArgs website_id start_date end_date t)])
    | Except.error _ =>
      ((try_metrics sess website_id start_date end_date rest).1,
        ("get_website_metrics", metricsArgs website_id start_date end_date t) ::
          (try_metrics sess website_id start_date end_date rest).2)

/-- The `get_html` step.  `Except.error` models the early `return real_data`
taken when the call fails; `Except.ok` is the fall-through. -/
def html_step (sess : Session) (avail : List String) (d : Snapshot) :
    Except (Snapshot × List ToolCall) (Snapshot × List ToolCall) :=
  if "get_html" ∈ avail then
    match sess.call_tool "get_html" [] with
    | Except.ok c => Except.ok (d ++ [("html", Val.content c)], [("get_html", [])])
    | Except.error e =>
      Except.error (d ++ [("html_error", Val.str e)], [("get_html", [])])
  else Except.ok (d, [])

/-- The `get_websites` step: on call failure record `websites_error` and return
early; on success store the content, resolve the website id, store it when truthy,
and return early (without an error key) when resolution fails. -/
def websites_step (sess : Session) (avail : List String) (website_domain : String)
    (d : Snapshot) (tr : List ToolCall) :
    Except (Snapshot × List ToolCall) (Snapshot × List ToolCall) :=
  if "get_websites" ∈ avail then
    match sess.call_tool "get_websites" [] with
    | Except.error e =>
      Except.error (d ++ [("websites_error", Val.str e)], tr ++ [("get_websites", [])])
    | Except.ok c =>
      let d2 := d ++ [("websites", Val.content c)]
      let tr2 := tr ++ [("get_websites", [])]
      match get_website_id_from_domain c website_domain with
      | none => Except.error (d2, tr2)
      | some wid =>
        if wid == "" then Except.error (d2, tr2)
        else Except.ok (d2 ++ [("website_id", Val.str wid)], tr2)
  else Except.ok (d, tr)

/-- The defensive re-read `website_id = real_data.get("website_id")` followed by
`if not website_id: return real_data`. -/
def wid_check (d : Snapshot) : Option String :=
  match lookupVal d "website_id" with
  | some (Val.str wid) => if wid == "" then none else some wid
  | _ => none

/-- The `get_website_stats` step: independent best-effort call, failure recorded
as `stats_error`, never aborts. -/
def stats_step (sess : Session) (avail : List String)
    (website_id start_date end_date : String) (d : Snapshot) (tr : List ToolCall) :
    Snapshot × List ToolCall :=
  if "get_website_stats" ∈ avail then
    let args : Args :=
      [("website_id", website_id), ("start_at", start_date), ("end_at", end_date)]
    match sess.call_tool "get_website_stats" args with
    | Except.ok c =>
      (d ++ [("website_stats", Val.content c)], tr ++ [("get_website_stats", args)])
    | Except.error e =>
      (d ++ [("stats_error", Val.str e)], tr ++ [("get_website_stats", args)])
  else (d, tr)

/-- The `get_pageview_series` step: independent best-effort call with the fixed
`unit = "day"`, failure recorded as `pageview_error`. -/
def pageview_step (sess : Session) (avail : List String)
    (website_id start_date end_date timezone : String) (d : Snapshot)
    (tr : List ToolCall) : Snapshot × List ToolCall :=
  if "get_pageview_series" ∈ avail then
    let args : Args :=
      [("website_id", website_id), ("start_at", start_date), ("end_at", end_date),
       ("unit", "day"), ("timezone", timezone)]
    match sess.call_tool "get_pageview_series" args with
    | Except.ok c =>
      (d ++ [("pageview_series", Val.content c)], tr ++ [("get_pageview_series", args)])
    | Except.error e =>
      (d ++ [("pageview_error", Val.str e)], tr ++ [("get_pageview_series", args)])
  else (d, tr)

/-- The `get_website_metrics` step: run the metric-type loop and store the first
success under `metrics_<type>`.  The source's outer `except` clause (which would
record `metrics_error`) is unreachable, because every iteration of the loop
catches all exceptions itself; accordingly no branch here produces a
`metrics_error` key. -/
def metrics_step (sess : Session) (avail : List String)
    (website_id start_date end_date : String) (d : Snapshot) (tr : List ToolCall) :
    Snapshot × List ToolCall :=
  if "get_website_metrics" ∈ avail then
    match try_metrics sess website_id start_date end_date metric_types with
    | (some (t, c), mtr) => (d ++ [("metrics_" ++ t, Val.content c)], tr ++ mtr)
    | (none, mtr) => (d, tr ++ mtr)
  else (d, tr)

/-- The `get_active_visitors` step: independent best-effort call, failure recorded
as `active_visitors_error`. -/
def active_step (sess : Session) (avail : List String) (website_id : String)
    (d : Snapshot) (tr : List ToolCall) : Snapshot × List ToolCall :=
  if "get_active_visitors" ∈ avail then
    let args : Args := [("website_id", website_id)]
    match sess.call_tool "get_active_visitors" args with
    | Except.ok c =>
      (d ++ [("active_visitors", Val.content c)], tr ++ [("get_active_visitors", args)])
    | Except.error e =>
      (d ++ [("active_visitors_error", Val.str e)], tr ++ [("get_active_visitors", args)])
  else (d, tr)

/-- The per-website best-effort tail of the collection pass: stats, pageview
series, metrics loop, active visitors — no step here ever aborts. -/
def collect_tail (sess : Session) (avail : List String)
    (website_id start_date end_date timezone : String) (d : Snapshot)
    (tr : List ToolCall) : Snapshot × List ToolCall :=
  let s3 := stats_step sess avail website_id start_date end_date d tr
  let s4 := pageview_step sess avail website_id start_date end_date timezone s3.1 s3.2
  let s5 := metrics_step sess avail website_id start_date end_date s4.1 s4.2
  active_step sess avail website_id s5.1 s5.2

/-- The seed entries of the snapshot, inserted before any session interaction. -/
def seed_data (website_domain start_date end_date timezone : String) : Snapshot :=
  [("website_domain", Val.str website_domain),
   ("date_range", Val.str (start_date ++ " to " ++ end_date)),
   ("timezone", Val.str timezone)]

/-- Embedding of `get_real_data_from_mcp`, instrumented with the trace of
`call_tool` invocations.  The seed entries come first; a `list_tools` exception
is the only one reaching the top-level handler, which records `general_error`;
each subsequent step mirrors one guarded block of the source, with early
`return real_data` modelled by the `Except.error` branches of the html/websites
steps and the `wid_check` read-back. -/
def get_real_data_from_mcp (sess : Session)
    (website_domain start_date end_date timezone : String) :
    Snapshot × List ToolCall :=
  let real_data := seed_data website_domain start_date end_date timezone
  match sess.list_tools with
  | Except.error e => (real_data ++ [("general_error", Val.str e)], [])
  | Except.ok available_tools =>
    let d0 := real_data ++ [("available_tools", Val.tools available_tools)]
    match html_step sess available_tools d0 with
    | Except.error out => out
    | Except.ok (d1, tr1) =>
      match websites_step sess available_tools website_domain d1 tr1 with
      | Except.error out => out
      | Except.ok (d2, tr2) =>
        match wid_check d2 with
        | none => (d2, tr2)
        | some wid =>
          collect_tail sess available_tools wid start_date end_date timezone d2 tr2

/-! ## Chat mode -/

/-- Rendering of one snapshot value inside the serialized context.  This, with
`dumpSnapshot`, models `json.dumps(self.session_data, indent=2, default=str)`:
the serializer is an external library, and every claim below depends only on
the chat prompt being a deterministic function of the snapshot and on where the
question is embedded, never on the exact JSON formatting. -/
def dumpVal : Val → String
  | Val.str s => s
  | Val.content c => toString (repr c)
  | Val.tools ts => String.intercalate ", " ts

/-- Serialization of the whole snapshot; see `dumpVal`. -/
def dumpSnapshot (d : Snapshot) : String :=
  String.intercalate "\n" (d.map fun p => p.1 ++ ": " ++ dumpVal p.2)

/-- Embedding of `create_chat_prompt`: the fixed persona preamble, the serialized
session data, the literal user question, and the fixed guideline bullets
(apostrophes of the source text written as the escape \x27). -/
def create_chat_prompt (user_question : String) (session_data : Snapshot) : String :=
  "You are an expert analytics consultant answering questions about website analytics data.\n\nCONTEXT - AVAILABLE DATA:\n"
    ++ dumpSnapshot session_data
    ++ "\n\nUSER QUESTION: " ++ user_question
    ++ "\n\nGUIDELINES:\n1. Answer based ONLY on the real data provided above\n2. If the data doesn\x27t contain information to answer the question, say so clearly\n3. Provide specific insights and recommendations when possible\n4. Suggest what additional data might be needed if the question can\x27t be fully answered\n5. Be conversational but professional\n6. Refer to specific metrics and time periods from the data when relevant\n\nAnswer the user\x27s question about the website analytics:"

/-- Observable outcome of one iteration of the `chat_mode` loop: the loop either
breaks, prints a generated response (with its provider tag), or prints an error
and continues. -/
inductive ChatEvent where
  | terminated
  | printedResponse (provider : String) (text : String)
  | errorPrinted (msg : String)
deriving DecidableEq, Repr

/-- Embedding of one iteration of the `chat_mode` loop.  The raw input line is
stripped; if its lowercasing is one of `quit`/`exit`/`q`/`""` the loop breaks
before any generation; otherwise the chat prompt is rendered from the stripped
input and the stored session data and exactly one gateway call is made, whose
result (or error) is printed.  The second component is the list of prompts sent
to the gateway during the iteration. -/
def chat_iteration (session_data : Snapshot) (cfg : AIConfig)
    (net : String → Except String CFResponse) (oll : String → OllamaOutcome)
    (raw : String) : ChatEvent × List String :=
  let user_input := pyStrip raw
  if ["quit", "exit", "q", ""].contains (pyLower user_input) then
    (ChatEvent.terminated, [])
  else
    let chat_prompt := create_chat_prompt user_input session_data
    match call_ai_with_fallback cfg net oll chat_prompt with
    | Except.ok (ai_response, ai_provider) =>
      (ChatEvent.printedResponse ai_provider ai_response, [chat_prompt])
    | Except.error e => (ChatEvent.errorPrinted e, [chat_prompt])

/-! ## Gateway claims -/

/-- Configuration with `CLOUDFLARE_ACCOUNT_ID` absent and a token present. -/
def cfgMissingId : AIConfig := ⟨none, some "tok"⟩

/-- Configuration with `CLOUDFLARE_ACCOUNT_ID` set to the empty string (falsy in
Python) and a token present. -/
def cfgEmptyId : AIConfig := ⟨some "", some "tok"⟩

/-- A fully valid configuration. -/
def cfgValid : AIConfig := ⟨some "acct", some "tok"⟩

/-- A network behaviour that would answer every request successfully. -/
def netAlwaysOk : String → Except String CFResponse :=
  fun _ => Except.ok ⟨200, "", true, "", "cf-text"⟩

/-- A network behaviour answering every request with HTTP 500. -/
def netHttp500 : String → Except String CFResponse :=
  fun _ => Except.ok ⟨500, "server blew up", true, "", ""⟩

/-- An ollama behaviour that succeeds with fixed output. -/
def ollSucceeds : String → OllamaOutcome :=
  fun _ => OllamaOutcome.exited 0 "local-text\n" ""

/-- An ollama behaviour where the executable is missing. -/
def ollMissing : String → OllamaOutcome :=
  fun _ => OllamaOutcome.notFound

/-- C1, counterexample.  With `CLOUDFLARE_ACCOUNT_ID` absent, `call_cloudflare_ai`
does raise the descriptive configuration error, but the gateway `generate`
(`call_ai_with_fallback`) catches it like any other exception and falls back to
ollama: with a working local backend it returns `("local-text", "ollama")` instead
of failing immediately, refuting both "fails immediately" and "does not trigger
the local (ollama) fallback". -/
theorem claim1_counterexample :
    call_cloudflare_ai cfgMissingId netAlwaysOk "p" = Except.error missingSecretsMsg ∧
    call_ai_with_fallback cfgMissingId netAlwaysOk ollSucceeds "p" =
      Except.ok ("local-text", "ollama") := by
  constructor <;> rfl

/-- C1, amended.  If either secret is absent or empty, `call_cloudflare_ai` fails
immediately with the descriptive error naming the secrets; at the gateway level
this configuration error is caught like any other hosted-backend failure, so when
the local backend succeeds the gateway returns its text tagged `"ollama"` (the
configuration error does trigger the fallback). -/
theorem claim1_amended_config_error_falls_back (cfg : AIConfig)
    (net : String → Except String CFResponse) (oll : String → OllamaOutcome)
    (prompt : String)
    (h : pyTruthy cfg.CLOUDFLARE_ACCOUNT_ID = false ∨
      pyTruthy cfg.CLOUDFLARE_API_TOKEN = false) :
    call_cloudflare_ai cfg net prompt = Except.error missingSecretsMsg ∧
    ∀ t, call_ollama_fallback oll prompt = Except.ok t →
      call_ai_with_fallback cfg net oll prompt = Except.ok (t, "ollama") := by
  have hcf : call_cloudflare_ai cfg net prompt = Except.error missingSecretsMsg := by
    unfold call_cloudflare_ai
    rcases h with h | h <;> simp [h]
  refine ⟨hcf, fun t ht => ?_⟩
  unfold call_ai_with_fallback
  rw [hcf, ht]

/-- C1, witness for the amended theorem, at the empty-string secret (falsy in
Python, hence also a configuration error). -/
theorem claim1_amended_witness :
    call_cloudflare_ai cfgEmptyId netAlwaysOk "p" = Except.error missingSecretsMsg ∧
    ∀ t, call_ollama_fallback ollSucceeds "p" = Except.ok t →
      call_ai_with_fallback cfgEmptyId netAlwaysOk ollSucceeds "p" =
        Except.ok (t, "ollama") :=
  claim1_amended_config_error_falls_back cfgEmptyId netAlwaysOk ollSucceeds "p"
    (Or.inl (by decide))

/-- C2.  For every prompt and every behaviour of the two backends: if the hosted
call fails and the local call succeeds, the gateway returns the local text tagged
`"ollama"`; if both fail, it raises a single aggregated error whose message
contains both underlying failure descriptions (it is exactly the
`Both AI services failed` message with the two descriptions embedded). -/
theorem claim2_gateway_fallback_and_aggregation (cfg : AIConfig)
    (net : String → Except String CFResponse) (oll : String → OllamaOutcome)
    (prompt : String) :
    (∀ cf t, call_cloudflare_ai cfg net prompt = Except.error cf →
      call_ollama_fallback oll prompt = Except.ok t →
      call_ai_with_fallback cfg net oll prompt = Except.ok (t, "ollama")) ∧
    (∀ cf ol, call_cloudflare_ai cfg net prompt = Except.error cf →
      call_ollama_fallback oll prompt = Except.error ol →
      ∃ msg, call_ai_with_fallback cfg net oll prompt = Except.error msg ∧
        (∃ a b, msg = a ++ cf ++ b) ∧ (∃ a b, msg = a ++ ol ++ b)) := by
  constructor
  · intro cf t hcf ht
    unfold call_ai_with_fallback
    rw [hcf, ht]
  · intro cf ol hcf hol
    refine ⟨"Both AI services failed. Cloudflare: " ++ cf ++ ", Ollama: " ++ ol, ?_, ?_, ?_⟩
    · unfold call_ai_with_fallback
      rw [hcf, hol]
    · exact ⟨"Both AI services failed. Cloudflare: ", ", Ollama: " ++ ol, by
        simp [String.append_assoc]⟩
    · exact ⟨"Both AI services failed. Cloudflare: " ++ cf ++ ", Ollama: ", "", by
        simp [String.append_assoc]⟩

/-- C2, witness: the hosted backend answers HTTP 500; with a working local backend
the gateway yields `("local-text", "ollama")`, and with a missing local executable
it raises the aggregated message. -/
theorem claim2_witness :
    call_ai_with_fallback cfgValid netHttp500 ollSucceeds "p" =
      Except.ok ("local-text", "ollama") ∧
    ∃ msg, call_ai_with_fallback cfgValid netHttp500 ollMissing "p" =
      Except.error msg ∧
      (∃ a b, msg = a ++ "Cloudflare AI error (500): server blew up" ++ b) ∧
      (∃ a b, msg = a ++ "Ollama is not installed or not in PATH" ++ b) := by
  constructor
  · exact (claim2_gateway_fallback_and_aggregation cfgValid netHttp500 ollSucceeds
      "p").1 "Cloudflare AI error (500): server blew up" "local-text" (by rfl) (by rfl)
  · exact (claim2_gateway_fallback_and_aggregation cfgValid netHttp500 ollMissing
      "p").2 "Cloudflare AI error (500): server blew up"
      "Ollama is not installed or not in PATH" (by rfl) (by rfl)

/-! ## Snapshot lemmas -/

theorem hasKey_append (d e : Snapshot) (k : String) :
    hasKey (d ++ e) k = (hasKey d k || hasKey e k) := by
  simp [hasKey, List.any_append]

theorem hasKey_single_ne {a k : String} (v : Val) (h : k ≠ a) :
    hasKey [(a, v)] k = false := by
  simp [hasKey]
  exact fun hh => absurd hh.symm h

theorem hasKey_single_self (a : String) (v : Val) : hasKey [(a, v)] a = true := by
  simp [hasKey]

theorem lookupVal_append (d e : Snapshot) (k : String) :
    lookupVal (d ++ e) k = (lookupVal d k).or (lookupVal e k) := by
  simp [lookupVal, List.find?_append, Option.or]
  cases d.find? fun p => p.1 == k <;> simp

theorem lookupVal_eq_none_of_hasKey_false {d : Snapshot} {k : String}
    (h : hasKey d k = false) : lookupVal d k = none := by
  induction d with
  | nil => rfl
  | cons p rest ih =>
    rw [hasKey, List.any_cons, Bool.or_eq_false_iff] at h
    have h2 := ih (by rw [hasKey]; exact h.2)
    unfold lookupVal at h2 ⊢
    rw [List.find?_cons_of_neg _ (by simp [h.1])]
    exact h2

/-! ## Step shape lemmas -/

theorem stats_step_shape (sess : Session) (avail : List String)
    (wid sd ed : String) (d : Snapshot) (tr : List ToolCall) :
    ∃ ext tre, stats_step sess avail wid sd ed d tr = (d ++ ext, tr ++ tre) ∧
      (∀ k, k ≠ "website_stats" → k ≠ "stats_error" → hasKey ext k = false) ∧
      (hasKey ext "website_stats" && hasKey ext "stats_error") = false ∧
      (∀ c ∈ tre, c.1 = "get_website_stats") := by
  unfold stats_step
  by_cases h : "get_website_stats" ∈ avail
  · simp only [h, if_true]
    cases hc : sess.call_tool "get_website_stats"
        [("website_id", wid), ("start_at", sd), ("end_at", ed)] with
    | ok c =>
      refine ⟨_, _, rfl, ?_, ?_, ?_⟩
      · intro k h1 _; exact hasKey_single_ne _ h1
      · rw [hasKey_single_ne (k := "stats_error") _ (by decide)]; simp
      · simp
    | error e =>
      refine ⟨_, _, rfl, ?_, ?_, ?_⟩
      · intro k _ h2; exact hasKey_single_ne _ h2
      · rw [hasKey_single_ne (k := "website_stats") _ (by decide)]; simp
      · simp
  · simp only [h, if_false]
    exact ⟨[], [], by simp, by intro k _ _; rfl, by rfl, by simp⟩

theorem pageview_step_shape (sess : Session) (avail : List String)
    (wid sd ed tz : String) (d : Snapshot) (tr : List ToolCall) :
    ∃ ext tre, pageview_step sess avail wid sd ed tz d tr = (d ++ ext, tr ++ tre) ∧
      (∀ k, k ≠ "pageview_series" → k ≠ "pageview_error" → hasKey ext k = false) ∧
      (hasKey ext "pageview_series" && hasKey ext "pageview_error") = false ∧
      (∀ c ∈ tre, c.1 = "get_pageview_series") := by
  unfold pageview_step
  by_cases h : "get_pageview_series" ∈ avail
  · simp only [h, if_true]
    cases hc : sess.call_tool "get_pageview_series"
        [("website_id", wid), ("start_at", sd), ("end_at", ed), ("unit", "day"),
         ("timezone", tz)] with
    | ok c =>
      refine ⟨_, _, rfl, ?_, ?_, ?_⟩
      · intro k h1 _; exact hasKey_single_ne _ h1
      · rw [hasKey_single_ne (k := "pageview_error") _ (by decide)]; simp
      · simp
    | error e =>
      refine ⟨_, _, rfl, ?_, ?_, ?_⟩
      · intro k _ h2; exact hasKey_single_ne _ h2
      · rw [hasKey_single_ne (k := "pageview_series") _ (by decide)]; simp
      · simp
  · simp only [h, if_false]
    exact ⟨[], [], by simp, by intro k _ _; rfl, by rfl, by simp⟩

theorem active_step_shape (sess : Session) (avail : List String)
    (wid : String) (d : Snapshot) (tr : List ToolCall) :
    ∃ ext tre, active_step sess avail wid d tr = (d ++ ext, tr ++ tre) ∧
      (∀ k, k ≠ "active_visitors" → k ≠ "active_visitors_error" → hasKey ext k = false) ∧
      (hasKey ext "active_visitors" && hasKey ext "active_visitors_error") = false ∧
      (∀ c ∈ tre, c.1 = "get_active_visitors") := by
  unfold active_step
  by_cases h : "get_active_visitors" ∈ avail
  · simp only [h, if_true]
    cases hc : sess.call_tool "get_active_visitors" [("website_id", wid)] with
    | ok c =>
      refine ⟨_, _, rfl, ?_, ?_, ?_⟩
      · intro k h1 _; exact hasKey_single_ne _ h1
      · rw [hasKey_single_ne (k := "active_visitors_error") _ (by decide)]; simp
      · simp
    | error e =>
      refine ⟨_, _, rfl, ?_, ?_, ?_⟩
      · intro k _ h2; exact hasKey_single_ne _ h2
      · rw [hasKey_single_ne (k := "active_visitors") _ (by decide)]; simp
      · simp
  · simp only [h, if_false]
    exact ⟨[], [], by simp, by intro k _ _; rfl, by rfl, by simp⟩

theorem try_metrics_shape (sess : Session) (wid sd ed : String) (l : List String) :
    (∀ c ∈ (try_metrics sess wid sd ed l).2,
      ∃ t, t ∈ l ∧ c = ("get_website_metrics", metricsArgs wid sd ed t)) ∧
    ((try_metrics sess wid sd ed l).1 = none ∨
      ∃ t c, t ∈ l ∧ (try_metrics sess wid sd ed l).1 = some (t, c)) := by
  induction l with
  | nil => exact ⟨by simp [try_metrics], Or.inl rfl⟩
  | cons t rest ih =>
    simp only [try_metrics]
    cases hc : sess.call_tool "get_website_metrics" (metricsArgs wid sd ed t) with
    | ok c =>
      refine ⟨?_, Or.inr ⟨t, c, by simp, rfl⟩⟩
      intro cc hcc
      simp at hcc
      exact ⟨t, by simp, by simp [hcc]⟩
    | error e =>
      refine ⟨?_, ?_⟩
      · intro cc hcc
        simp at hcc
        rcases hcc with hcc | hcc
        · exact ⟨t, by simp, by simp [hcc]⟩
        · obtain ⟨t2, ht2, hc2⟩ := ih.1 cc hcc
          exact ⟨t2, by simp [ht2], hc2⟩
      · rcases ih.2 with h0 | ⟨t2, c2, ht2, hc2⟩
        · exact Or.inl (by simpa using h0)
        · exact Or.inr ⟨t2, c2, by simp [ht2], by simpa using hc2⟩

theorem metrics_step_shape (sess : Session) (avail : List String)
    (wid sd ed : String) (d : Snapshot) (tr : List ToolCall) :
    ∃ ext tre, metrics_step sess avail wid sd ed d tr = (d ++ ext, tr ++ tre) ∧
      (∀ k, (∀ t ∈ metric_types, k ≠ "metrics_" ++ t) → hasKey ext k = false) ∧
      hasKey ext "metrics_error" = false ∧
      (∀ c ∈ tre, c.1 = "get_website_metrics") := by
  unfold metrics_step
  by_cases h : "get_website_metrics" ∈ avail
  · simp only [h, if_true]
    obtain ⟨htr, hres⟩ := try_metrics_shape sess wid sd ed metric_types
    rcases hm : try_metrics sess wid sd ed metric_types with ⟨r1, r2⟩
    rw [hm] at hres htr
    rcases hres with h0 | ⟨t, c, ht, hc⟩
    · simp only at h0
      subst h0
      refine ⟨[], r2, by simp, fun k _ => rfl, rfl, ?_⟩
      intro cc hcc
      obtain ⟨t2, _, hc2⟩ := htr cc (by simpa using hcc)
      simp [hc2]
    · simp only at hc
      subst hc
      refine ⟨[("metrics_" ++ t, Val.content c)], r2, rfl, ?_, ?_, ?_⟩
      · intro k hk; exact hasKey_single_ne _ (hk t ht)
      · apply hasKey_single_ne
        simp [metric_types] at ht
        rcases ht with rfl | rfl | rfl | rfl | rfl | rfl <;> decide
      · intro cc hcc
        obtain ⟨t2, _, hc2⟩ := htr cc (by simpa using hcc)
        simp [hc2]
  · simp only [h, if_false]
    exact ⟨[], [], by simp, by intro k _; rfl, by rfl, by simp⟩

theorem html_step_error_shape {sess : Session} {avail : List String} {d : Snapshot}
    {out : Snapshot × List ToolCall} (h : html_step sess avail d = Except.error out) :
    ∃ e, out = (d ++ [("html_error", Val.str e)], [("get_html", [])]) ∧
      "get_html" ∈ avail ∧ sess.call_tool "get_html" [] = Except.error e := by
  unfold html_step at h
  by_cases hm : "get_html" ∈ avail
  · simp only [hm, if_true] at h
    cases hc : sess.call_tool "get_html" [] with
    | ok c => rw [hc] at h; cases h
    | error e =>
      rw [hc] at h
      cases h
      exact ⟨e, rfl, hm, rfl⟩
  · simp [hm] at h

theorem html_step_ok_shape {sess : Session} {avail : List String} {d : Snapshot}
    {out : Snapshot × List ToolCall} (h : html_step sess avail d = Except.ok out) :
    ∃ ext, out.1 = d ++ ext ∧ (∀ k, k ≠ "html" → hasKey ext k = false) ∧
      (∀ c ∈ out.2, c.1 = "get_html") := by
  unfold html_step at h
  by_cases hm : "get_html" ∈ avail
  · simp only [hm, if_true] at h
    cases hc : sess.call_tool "get_html" [] with
    | ok c =>
      rw [hc] at h
      cases h
      exact ⟨[("html", Val.content c)], rfl,
        fun k hk => hasKey_single_ne _ hk, by simp⟩
    | error e => rw [hc] at h; cases h
  · simp only [hm, if_false] at h
    cases h
    exact ⟨[], by simp, fun k _ => rfl, by simp⟩

theorem websites_step_error_shape {sess : Session} {avail : List String}
    {wd : String} {d : Snapshot} {tr : List ToolCall}
    {out : Snapshot × List ToolCall}
    (h : websites_step sess avail wd d tr = Except.error out) :
    ∃ ext, out.1 = d ++ ext ∧
      (∀ k, k ≠ "websites" → k ≠ "websites_error" → hasKey ext k = false) ∧
      (hasKey ext "websites" && hasKey ext "websites_error") = false ∧
      (∀ c ∈ out.2, c ∈ tr ∨ c.1 = "get_websites") := by
  unfold websites_step at h
  split at h
  · split at h
    next e heq =>
      cases h
      refine ⟨[("websites_error", Val.str e)], rfl, ?_, ?_, ?_⟩
      · intro k _ h2; exact hasKey_single_ne _ h2
      · rw [hasKey_single_ne (k := "websites") _ (by decide)]; simp
      · intro cc hcc
        simp at hcc
        rcases hcc with hcc | hcc
        · exact Or.inl hcc
        · exact Or.inr (by simp [hcc])
    next c heq =>
      split at h
      next hres =>
        cases h
        refine ⟨[("websites", Val.content c)], rfl, ?_, ?_, ?_⟩
        · intro k h1 _; exact hasKey_single_ne _ h1
        · rw [hasKey_single_ne (k := "websites_error") _ (by decide)]; simp
        · intro cc hcc
          simp at hcc
          rcases hcc with hcc | hcc
          · exact Or.inl hcc
          · exact Or.inr (by simp [hcc])
      next wid hres =>
        split at h
        · cases h
          refine ⟨[("websites", Val.content c)], rfl, ?_, ?_, ?_⟩
          · intro k h1 _; exact hasKey_single_ne _ h1
          · rw [hasKey_single_ne (k := "websites_error") _ (by decide)]; simp
          · intro cc hcc
            simp at hcc
            rcases hcc with hcc | hcc
            · exact Or.inl hcc
            · exact Or.inr (by simp [hcc])
        · cases h
  · cases h

theorem websites_step_ok_shape {sess : Session} {avail : List String}
    {wd : String} {d : Snapshot} {tr : List ToolCall}
    {out : Snapshot × List ToolCall}
    (h : websites_step sess avail wd d tr = Except.ok out) :
    ∃ ext, out.1 = d ++ ext ∧
      (∀ k, k ≠ "websites" → k ≠ "website_id" → hasKey ext k = false) ∧
      (∀ c ∈ out.2, c ∈ tr ∨ c.1 = "get_websites") := by
  unfold websites_step at h
  split at h
  · split at h
    next e heq => cases h
    next c heq =>
      split at h
      next hres => cases h
      next wid hres =>
        split at h
        · cases h
        · cases h
          refine ⟨[("websites", Val.content c), ("website_id", Val.str wid)],
            by simp, ?_, ?_⟩
          · intro k h1 h2
            have hsplit : [("websites", Val.content c), ("website_id", Val.str wid)] =
                [("websites", Val.content c)] ++ [("website_id", Val.str wid)] := rfl
            rw [hsplit, hasKey_append, hasKey_single_ne _ h1, hasKey_single_ne _ h2]
            rfl
          · intro cc hcc
            simp at hcc
            rcases hcc with hcc | hcc
            · exact Or.inl hcc
            · exact Or.inr (by simp [hcc])
  · cases h
    exact ⟨[], by simp, fun k _ _ => rfl, fun c hc => Or.inl hc⟩

/-- Composed shape of the non-aborting tail of the collection pass: it only
appends entries whose keys belong to the tail categories, it never records both
the success and the error key of one category, it never records `metrics_error`,
and every trace entry it appends names one of the four tail tools. -/
theorem collect_tail_shape (sess : Session) (avail : List String)
    (wid sd ed tz : String) (d : Snapshot) (tr : List ToolCall) :
    ∃ ext tre, collect_tail sess avail wid sd ed tz d tr = (d ++ ext, tr ++ tre) ∧
      (∀ k, k ≠ "website_stats" → k ≠ "stats_error" → k ≠ "pageview_series" →
        k ≠ "pageview_error" → (∀ t ∈ metric_types, k ≠ "metrics_" ++ t) →
        k ≠ "active_visitors" → k ≠ "active_visitors_error" → hasKey ext k = false) ∧
      (hasKey ext "website_stats" && hasKey ext "stats_error") = false ∧
      (hasKey ext "pageview_series" && hasKey ext "pageview_error") = false ∧
      (hasKey ext "active_visitors" && hasKey ext "active_visitors_error") = false ∧
      hasKey ext "metrics_error" = false ∧
      (∀ c ∈ tre, c.1 = "get_website_stats" ∨ c.1 = "get_pageview_series" ∨
        c.1 = "get_website_metrics" ∨ c.1 = "get_active_visitors") := by
  obtain ⟨e1, t1, hs, hks1, hp1, htn1⟩ := stats_step_shape sess avail wid sd ed d tr
  obtain ⟨e2, t2, hp, hks2, hp2, htn2⟩ := pageview_step_shape sess avail wid sd ed tz
    (d ++ e1) (tr ++ t1)
  obtain ⟨e3, t3, hmm, hks3, hm3, htn3⟩ := metrics_step_shape sess avail wid sd ed
    (d ++ e1 ++ e2) (tr ++ t1 ++ t2)
  obtain ⟨e4, t4, ha, hks4, hp4, htn4⟩ := active_step_shape sess avail wid
    (d ++ e1 ++ e2 ++ e3) (tr ++ t1 ++ t2 ++ t3)
  refine ⟨e1 ++ e2 ++ e3 ++ e4, t1 ++ t2 ++ t3 ++ t4, ?_, ?_, ?_, ?_, ?_, ?_, ?_⟩
  · simp only [List.append_assoc] at hs hp hmm ha
    simp [collect_tail, hs, hp, hmm, ha]
  · intro k h1 h2 h3 h4 h5 h6 h7
    rw [hasKey_append, hasKey_append, hasKey_append,
      hks1 k h1 h2, hks2 k h3 h4, hks3 k h5, hks4 k h6 h7]
    rfl
  · rw [hasKey_append, hasKey_append, hasKey_append,
      hasKey_append, hasKey_append, hasKey_append]
    rw [hks2 _ (by decide) (by decide), hks3 _ (by decide), hks4 _ (by decide) (by decide),
      hks2 _ (by decide) (by decide), hks3 _ (by decide), hks4 _ (by decide) (by decide)]
    simpa using hp1
  · rw [hasKey_append, hasKey_append, hasKey_append,
      hasKey_append, hasKey_append, hasKey_append]
    rw [hks1 _ (by decide) (by decide), hks3 _ (by decide), hks4 _ (by decide) (by decide),
      hks1 _ (by decide) (by decide), hks3 _ (by decide), hks4 _ (by decide) (by decide)]
    simpa using hp2
  · rw [hasKey_append, hasKey_append, hasKey_append,
      hasKey_append, hasKey_append, hasKey_append]
    rw [hks1 _ (by decide) (by decide), hks2 _ (by decide) (by decide), hks3 _ (by decide),
      hks1 _ (by decide) (by decide), hks2 _ (by decide) (by decide), hks3 _ (by decide)]
    simpa using hp4
  · rw [hasKey_append, hasKey_append, hasKey_append,
      hks1 _ (by decide) (by decide), hks2 _ (by decide) (by decide), hm3,
      hks4 _ (by decide) (by decide)]
    rfl
  · intro c hc
    simp at hc
    rcases hc with hc | hc | hc | hc
    · exact Or.inl (htn1 c hc)
    · exact Or.inr (Or.inl (htn2 c hc))
    · exact Or.inr (Or.inr (Or.inl (htn3 c hc)))
    · exact Or.inr (Or.inr (Or.inr (htn4 c hc)))

/-- Master characterization of one collection pass: the result snapshot is the
seed entries followed by an extension in which no retrieval category carries
both its success key and its error key, and in which `metrics_error` never
occurs. -/
theorem collect_shape (sess : Session) (wd sd ed tz : String) :
    ∃ ext tr, get_real_data_from_mcp sess wd sd ed tz =
        (seed_data wd sd ed tz ++ ext, tr) ∧
      (hasKey ext "html" && hasKey ext "html_error") = false ∧
      (hasKey ext "websites" && hasKey ext "websites_error") = false ∧
      (hasKey ext "website_stats" && hasKey ext "stats_error") = false ∧
      (hasKey ext "pageview_series" && hasKey ext "pageview_error") = false ∧
      (hasKey ext "active_visitors" && hasKey ext "active_visitors_error") = false ∧
      hasKey ext "metrics_error" = false := by
  unfold get_real_data_from_mcp
  cases hlt : sess.list_tools with
  | error e =>
    exact ⟨[("general_error", Val.str e)], [], rfl, by simp [hasKey], by simp [hasKey],
      by simp [hasKey], by simp [hasKey], by simp [hasKey], by simp [hasKey]⟩
  | ok avail =>
    dsimp only
    cases hh : html_step sess avail
        (seed_data wd sd ed tz ++ [("available_tools", Val.tools avail)]) with
    | error out =>
      obtain ⟨e, hout, _, _⟩ := html_step_error_shape hh
      subst hout
      refine ⟨[("available_tools", Val.tools avail), ("html_error", Val.str e)],
        [("get_html", [])], by simp, ?_, ?_, ?_, ?_, ?_, ?_⟩
      all_goals simp [hasKey]
    | ok out1 =>
      obtain ⟨ext1, hd1, hks1, _⟩ := html_step_ok_shape hh
      rcases out1 with ⟨d1, tr1⟩
      simp only at hd1
      subst hd1
      cases hw : websites_step sess avail wd
          (seed_data wd sd ed tz ++ [("available_tools", Val.tools avail)] ++ ext1) tr1 with
      | error out2 =>
        obtain ⟨ext2, hd2, hks2, hpw2, _⟩ := websites_step_error_shape hw
        rcases out2 with ⟨o1, o2⟩
        simp only at hd2
        subst hd2
        have h2he : hasKey ([("available_tools", Val.tools avail)] ++ ext1 ++ ext2)
            "html_error" = false := by
          rw [hasKey_append, hasKey_append, hks1 _ (by decide),
            hks2 _ (by decide) (by decide)]
          simp [hasKey]
        have h2ws : hasKey ([("available_tools", Val.tools avail)] ++ ext1 ++ ext2)
            "websites" = hasKey ext2 "websites" := by
          rw [hasKey_append, hasKey_append, hks1 _ (by decide)]
          simp [hasKey]
        have h2we : hasKey ([("available_tools", Val.tools avail)] ++ ext1 ++ ext2)
            "websites_error" = hasKey ext2 "websites_error" := by
          rw [hasKey_append, hasKey_append, hks1 _ (by decide)]
          simp [hasKey]
        have h2st : hasKey ([("available_tools", Val.tools avail)] ++ ext1 ++ ext2)
            "website_stats" = false := by
          rw [hasKey_append, hasKey_append, hks1 _ (by decide),
            hks2 _ (by decide) (by decide)]
          simp [hasKey]
        have h2pv : hasKey ([("available_tools", Val.tools avail)] ++ ext1 ++ ext2)
            "pageview_series" = false := by
          rw [hasKey_append, hasKey_append, hks1 _ (by decide),
            hks2 _ (by decide) (by decide)]
          simp [hasKey]
        have h2av : hasKey ([("available_tools", Val.tools avail)] ++ ext1 ++ ext2)
            "active_visitors" = false := by
          rw [hasKey_append, hasKey_append, hks1 _ (by decide),
            hks2 _ (by decide) (by decide)]
          simp [hasKey]
        have h2me : hasKey ([("available_tools", Val.tools avail)] ++ ext1 ++ ext2)
            "metrics_error" = false := by
          rw [hasKey_append, hasKey_append, hks1 _ (by decide),
            hks2 _ (by decide) (by decide)]
          simp [hasKey]
        refine ⟨[("available_tools", Val.tools avail)] ++ ext1 ++ ext2, o2,
          by dsimp only; rw [hw]; simp [List.append_assoc], ?_, ?_, ?_, ?_, ?_, ?_⟩
        · rw [h2he, Bool.and_false]
        · rw [h2ws, h2we]; exact hpw2
        · rw [h2st, Bool.false_and]
        · rw [h2pv, Bool.false_and]
        · rw [h2av, Bool.false_and]
        · exact h2me
      | ok out2 =>
        obtain ⟨ext2, hd2, hks2, _⟩ := websites_step_ok_shape hw
        rcases out2 with ⟨d2, tr2⟩
        simp only at hd2
        subst hd2
        have h2he : hasKey ([("available_tools", Val.tools avail)] ++ ext1 ++ ext2)
            "html_error" = false := by
          rw [hasKey_append, hasKey_append, hks1 _ (by decide),
            hks2 _ (by decide) (by decide)]
          simp [hasKey]
        have h2we : hasKey ([("available_tools", Val.tools avail)] ++ ext1 ++ ext2)
            "websites_error" = false := by
          rw [hasKey_append, hasKey_append, hks1 _ (by decide),
            hks2 _ (by decide) (by decide)]
          simp [hasKey]
        have h2st : hasKey ([("available_tools", Val.tools avail)] ++ ext1 ++ ext2)
            "website_stats" = false := by
          rw [hasKey_append, hasKey_append, hks1 _ (by decide),
            hks2 _ (by decide) (by decide)]
          simp [hasKey]
        have h2pv : hasKey ([("available_tools", Val.tools avail)] ++ ext1 ++ ext2)
            "pageview_series" = false := by
          rw [hasKey_append, hasKey_append, hks1 _ (by decide),
            hks2 _ (by decide) (by decide)]
          simp [hasKey]
        have h2av : hasKey ([("available_tools", Val.tools avail)] ++ ext1 ++ ext2)
            "active_visitors" = false := by
          rw [hasKey_append, hasKey_append, hks1 _ (by decide),
            hks2 _ (by decide) (by decide)]
          simp [hasKey]
        have h2me : hasKey ([("available_tools", Val.tools avail)] ++ ext1 ++ ext2)
            "metrics_error" = false := by
          rw [hasKey_append, hasKey_append, hks1 _ (by decide),
            hks2 _ (by decide) (by decide)]
          simp [hasKey]
        have h2se : hasKey ([("available_tools", Val.tools avail)] ++ ext1 ++ ext2)
            "stats_error" = false := by
          rw [hasKey_append, hasKey_append, hks1 _ (by decide),
            hks2 _ (by decide) (by decide)]
          simp [hasKey]
        have h2pe : hasKey ([("available_tools", Val.tools avail)] ++ ext1 ++ ext2)
            "pageview_error" = false := by
          rw [hasKey_append, hasKey_append, hks1 _ (by decide),
            hks2 _ (by decide) (by decide)]
          simp [hasKey]
        have h2ae : hasKey ([("available_tools", Val.tools avail)] ++ ext1 ++ ext2)
            "active_visitors_error" = false := by
          rw [hasKey_append, hasKey_append, hks1 _ (by decide),
            hks2 _ (by decide) (by decide)]
          simp [hasKey]
        cases hwc : wid_check
            (seed_data wd sd ed tz ++ [("available_tools", Val.tools avail)] ++ ext1 ++ ext2) with
        | none =>
          refine ⟨[("available_tools", Val.tools avail)] ++ ext1 ++ ext2, tr2,
            by dsimp only; rw [hw]; dsimp only; rw [hwc]; simp [List.append_assoc],
            ?_, ?_, ?_, ?_, ?_, ?_⟩
          · rw [h2he, Bool.and_false]
          · rw [h2we, Bool.and_false]
          · rw [h2st, Bool.false_and]
          · rw [h2pv, Bool.false_and]
          · rw [h2av, Bool.false_and]
          · exact h2me
        | some wid =>
          obtain ⟨ext3, tre3, htail, hks3, hpA, hpB, hpC, hme, _⟩ :=
            collect_tail_shape sess avail wid sd ed tz
              (seed_data wd sd ed tz ++ [("available_tools", Val.tools avail)] ++ ext1 ++ ext2)
              tr2
          have hks3a : ∀ k, k ≠ "website_stats" → k ≠ "stats_error" →
              k ≠ "pageview_series" → k ≠ "pageview_error" →
              k ≠ "metrics_url" → k ≠ "metrics_referrer" → k ≠ "metrics_browser" →
              k ≠ "metrics_os" → k ≠ "metrics_device" → k ≠ "metrics_country" →
              k ≠ "active_visitors" → k ≠ "active_visitors_error" →
              hasKey ext3 k = false := by
            intro k a1 a2 a3 a4 m1 m2 m3 m4 m5 m6 a5 a6
            refine hks3 k a1 a2 a3 a4 ?_ a5 a6
            intro t ht
            simp [metric_types] at ht
            rcases ht with rfl | rfl | rfl | rfl | rfl | rfl
            · exact m1
            · exact m2
            · exact m3
            · exact m4
            · exact m5
            · exact m6
          have big : ∀ k, hasKey ([("available_tools", Val.tools avail)] ++ ext1 ++ ext2 ++ ext3) k =
              (hasKey ([("available_tools", Val.tools avail)] ++ ext1 ++ ext2) k || hasKey ext3 k) := by
            intro k
            rw [hasKey_append]
          refine ⟨[("available_tools", Val.tools avail)] ++ ext1 ++ ext2 ++ ext3,
            tr2 ++ tre3,
            by dsimp only; rw [hw]; dsimp only; rw [hwc]; dsimp only; rw [htail]
               simp [List.append_assoc],
            ?_, ?_, ?_, ?_, ?_, ?_⟩
          · rw [big, big, h2he,
              hks3a "html" (by decide) (by decide) (by decide) (by decide) (by decide)
                (by decide) (by decide) (by decide) (by decide) (by decide) (by decide)
                (by decide),
              hks3a "html_error" (by decide) (by decide) (by decide) (by decide)
                (by decide) (by decide) (by decide) (by decide) (by decide) (by decide)
                (by decide) (by decide)]
            simp
          · rw [big, big, h2we,
              hks3a "websites" (by decide) (by decide) (by decide) (by decide)
                (by decide) (by decide) (by decide) (by decide) (by decide) (by decide)
                (by decide) (by decide),
              hks3a "websites_error" (by decide) (by decide) (by decide) (by decide)
                (by decide) (by decide) (by decide) (by decide) (by decide) (by decide)
                (by decide) (by decide)]
            simp
          · rw [big, big, h2st, h2se, Bool.false_or, Bool.false_or]
            exact hpA
          · rw [big, big, h2pv, h2pe, Bool.false_or, Bool.false_or]
            exact hpB
          · rw [big, big, h2av, h2ae, Bool.false_or, Bool.false_or]
            exact hpC
          · rw [big, h2me, hme]
            rfl
theorem seed_hasKey_false (wd sd ed tz : String) {k : String}
    (h1 : k ≠ "website_domain") (h2 : k ≠ "date_range") (h3 : k ≠ "timezone") :
    hasKey (seed_data wd sd ed tz) k = false := by
  simp [seed_data, hasKey]
  exact ⟨fun h => absurd h.symm h1, fun h => absurd h.symm h2, fun h => absurd h.symm h3⟩

/-! ## Collector claims -/

/-- C6.  For every session behaviour and every input, each retrieval category's
success key and its corresponding error key are mutually exclusive in the
returned snapshot (`website_stats` pairs with `stats_error`, `pageview_series`
with `pageview_error`, and any `metrics_<type>` with `metrics_error`, which in
fact never occurs). -/
theorem claim6_success_error_mutual_exclusion (sess : Session)
    (wd sd ed tz : String) :
    (hasKey (get_real_data_from_mcp sess wd sd ed tz).1 "html" &&
      hasKey (get_real_data_from_mcp sess wd sd ed tz).1 "html_error") = false ∧
    (hasKey (get_real_data_from_mcp sess wd sd ed tz).1 "websites" &&
      hasKey (get_real_data_from_mcp sess wd sd ed tz).1 "websites_error") = false ∧
    (hasKey (get_real_data_from_mcp sess wd sd ed tz).1 "website_stats" &&
      hasKey (get_real_data_from_mcp sess wd sd ed tz).1 "stats_error") = false ∧
    (hasKey (get_real_data_from_mcp sess wd sd ed tz).1 "pageview_series" &&
      hasKey (get_real_data_from_mcp sess wd sd ed tz).1 "pageview_error") = false ∧
    (hasKey (get_real_data_from_mcp sess wd sd ed tz).1 "active_visitors" &&
      hasKey (get_real_data_from_mcp sess wd sd ed tz).1 "active_visitors_error") = false ∧
    ∀ t, (hasKey (get_real_data_from_mcp sess wd sd ed tz).1 ("metrics_" ++ t) &&
      hasKey (get_real_data_from_mcp sess wd sd ed tz).1 "metrics_error") = false := by
  obtain ⟨ext, tr, heq, p1, p2, p3, p4, p5, p6⟩ := collect_shape sess wd sd ed tz
  rw [heq]
  dsimp only
  refine ⟨?_, ?_, ?_, ?_, ?_, ?_⟩
  · rw [hasKey_append, hasKey_append,
      seed_hasKey_false wd sd ed tz (by decide) (by decide) (by decide),
      seed_hasKey_false wd sd ed tz (by decide) (by decide) (by decide),
      Bool.false_or, Bool.false_or]
    exact p1
  · rw [hasKey_append, hasKey_append,
      seed_hasKey_false wd sd ed tz (by decide) (by decide) (by decide),
      seed_hasKey_false wd sd ed tz (by decide) (by decide) (by decide),
      Bool.false_or, Bool.false_or]
    exact p2
  · rw [hasKey_append, hasKey_append,
      seed_hasKey_false wd sd ed tz (by decide) (by decide) (by decide),
      seed_hasKey_false wd sd ed tz (by decide) (by decide) (by decide),
      Bool.false_or, Bool.false_or]
    exact p3
  · rw [hasKey_append, hasKey_append,
      seed_hasKey_false wd sd ed tz (by decide) (by decide) (by decide),
      seed_hasKey_false wd sd ed tz (by decide) (by decide) (by decide),
      Bool.false_or, Bool.false_or]
    exact p4
  · rw [hasKey_append, hasKey_append,
      seed_hasKey_false wd sd ed tz (by decide) (by decide) (by decide),
      seed_hasKey_false wd sd ed tz (by decide) (by decide) (by decide),
      Bool.false_or, Bool.false_or]
    exact p5
  · intro t
    have hme : hasKey (seed_data wd sd ed tz ++ ext) "metrics_error" = false := by
      rw [hasKey_append,
        seed_hasKey_false wd sd ed tz (by decide) (by decide) (by decide), p6]
      rfl
    rw [hme, Bool.and_false]

/-- C7.  The collector is total: for every session behaviour (any listing or tool
call may raise) it returns a snapshot carrying the seed entries, and the only
exception that can escape the guarded steps — a `list_tools` failure — is caught
at the top level and recorded as the generic `general_error` field. -/
theorem claim7_collect_never_raises (sess : Session) (wd sd ed tz : String) :
    lookupVal (get_real_data_from_mcp sess wd sd ed tz).1 "website_domain" =
      some (Val.str wd) ∧
    lookupVal (get_real_data_from_mcp sess wd sd ed tz).1 "date_range" =
      some (Val.str (sd ++ " to " ++ ed)) ∧
    lookupVal (get_real_data_from_mcp sess wd sd ed tz).1 "timezone" =
      some (Val.str tz) ∧
    ∀ e, sess.list_tools = Except.error e →
      get_real_data_from_mcp sess wd sd ed tz =
        (seed_data wd sd ed tz ++ [("general_error", Val.str e)], []) := by
  obtain ⟨ext, tr, heq, _, _, _, _, _, _⟩ := collect_shape sess wd sd ed tz
  refine ⟨?_, ?_, ?_, ?_⟩
  · rw [heq]
    dsimp only
    rw [lookupVal_append]
    simp [seed_data, lookupVal, Option.or]
  · rw [heq]
    dsimp only
    rw [lookupVal_append]
    simp [seed_data, lookupVal, Option.or]
  · rw [heq]
    dsimp only
    rw [lookupVal_append]
    simp [seed_data, lookupVal, Option.or]
  · intro e hlt
    unfold get_real_data_from_mcp
    rw [hlt]

/-- A session whose tool listing itself raises. -/
def sessListFail : Session :=
  ⟨Except.error "listing blew up", fun _ _ => Except.ok []⟩

/-- C7, witness: with a session whose `list_tools` raises, the collector still
returns a snapshot, consisting of the seeds plus the recorded `general_error`. -/
theorem claim7_witness :
    get_real_data_from_mcp sessListFail "example.com" "2025-06-01" "2025-07-01" "UTC" =
      (seed_data "example.com" "2025-06-01" "2025-07-01" "UTC" ++
        [("general_error", Val.str "listing blew up")], []) :=
  (claim7_collect_never_raises sessListFail "example.com" "2025-06-01" "2025-07-01"
    "UTC").2.2.2 "listing blew up" rfl

theorem hasKey_pair_ne {a b k : String} (v w : Val) (h1 : k ≠ a) (h2 : k ≠ b) :
    hasKey [(a, v), (b, w)] k = false := by
  simp [hasKey]
  exact ⟨fun h => absurd h.symm h1, fun h => absurd h.symm h2⟩

/-- C5.  If `get_html` is advertised and its call fails, the collector records
`html_error` and aborts: the returned snapshot is exactly the seeds, the tool
list and the `html_error` entry — so none of the later success keys can be
present, no matter which other tools are advertised — and the only tool call
ever made is the `get_html` one. -/
theorem claim5_html_failure_aborts_collection (sess : Session)
    (wd sd ed tz : String) (avail : List String) (e : String)
    (hlt : sess.list_tools = Except.ok avail)
    (hmem : "get_html" ∈ avail)
    (herr : sess.call_tool "get_html" [] = Except.error e) :
    get_real_data_from_mcp sess wd sd ed tz =
      (seed_data wd sd ed tz ++
        [("available_tools", Val.tools avail), ("html_error", Val.str e)],
       [("get_html", [])]) ∧
    hasKey (get_real_data_from_mcp sess wd sd ed tz).1 "html_error" = true ∧
    hasKey (get_real_data_from_mcp sess wd sd ed tz).1 "websites" = false ∧
    hasKey (get_real_data_from_mcp sess wd sd ed tz).1 "website_id" = false ∧
    hasKey (get_real_data_from_mcp sess wd sd ed tz).1 "website_stats" = false ∧
    hasKey (get_real_data_from_mcp sess wd sd ed tz).1 "pageview_series" = false ∧
    (∀ t ∈ metric_types,
      hasKey (get_real_data_from_mcp sess wd sd ed tz).1 ("metrics_" ++ t) = false) ∧
    hasKey (get_real_data_from_mcp sess wd sd ed tz).1 "active_visitors" = false := by
  have hmain : get_real_data_from_mcp sess wd sd ed tz =
      (seed_data wd sd ed tz ++
        [("available_tools", Val.tools avail), ("html_error", Val.str e)],
       [("get_html", [])]) := by
    unfold get_real_data_from_mcp
    rw [hlt]
    dsimp only
    have hh : html_step sess avail
        (seed_data wd sd ed tz ++ [("available_tools", Val.tools avail)]) =
        Except.error (seed_data wd sd ed tz ++ [("available_tools", Val.tools avail)]
          ++ [("html_error", Val.str e)], [("get_html", [])]) := by
      unfold html_step
      rw [if_pos hmem, herr]
    rw [hh]
    dsimp only
    simp [List.append_assoc]
  rw [hmain]
  dsimp only
  refine ⟨rfl, ?_, ?_, ?_, ?_, ?_, ?_, ?_⟩
  · simp [seed_data, hasKey]
  · simp [seed_data, hasKey]
  · simp [seed_data, hasKey]
  · simp [seed_data, hasKey]
  · simp [seed_data, hasKey]
  · intro t ht
    simp [metric_types] at ht
    rcases ht with rfl | rfl | rfl | rfl | rfl | rfl <;> simp [seed_data, hasKey]
  · simp [seed_data, hasKey]

/-- The full advertised tool list of the analytics server. -/
def allTools : List String :=
  ["get_html", "get_websites", "get_website_stats", "get_pageview_series",
   "get_website_metrics", "get_active_visitors"]

/-- A session advertising every tool whose `get_html` call fails. -/
def sessHtmlDown : Session :=
  ⟨Except.ok allTools,
   fun name _ =>
     if name == "get_html" then Except.error "html fetch failed" else Except.ok []⟩

/-- C5, witness: with every tool advertised and `get_html` failing, the snapshot
is exactly seeds + tool list + `html_error`, and only one tool call was made. -/
theorem claim5_witness :
    get_real_data_from_mcp sessHtmlDown "example.com" "2025-06-01" "2025-07-01" "UTC" =
      (seed_data "example.com" "2025-06-01" "2025-07-01" "UTC" ++
        [("available_tools", Val.tools allTools),
         ("html_error", Val.str "html fetch failed")],
       [("get_html", [])]) :=
  (claim5_html_failure_aborts_collection sessHtmlDown "example.com" "2025-06-01"
    "2025-07-01" "UTC" allTools "html fetch failed" rfl (by decide) rfl).1

theorem findId_eq_none {l : List WebsiteRecord} {domain : String}
    (h : ∀ w ∈ l, w.domain ≠ some domain) : findId l domain = none := by
  induction l with
  | nil => rfl
  | cons w rest ih =>
    rw [findId, if_neg (h w (by simp))]
    exact ih fun v hv => h v (by simp [hv])

theorem findId_first {domain : String} (pre : List WebsiteRecord)
    (w : WebsiteRecord) (post : List WebsiteRecord)
    (hpre : ∀ v ∈ pre, v.domain ≠ some domain) (hw : w.domain = some domain) :
    findId (pre ++ w :: post) domain = w.id := by
  induction pre with
  | nil => rw [List.nil_append, findId, if_pos hw]
  | cons v rest ih =>
    rw [List.cons_append, findId, if_neg (hpre v (by simp))]
    exact ih fun u hu => hpre u (by simp [hu])

/-- C8.  Website id resolution scans the decoded `data` array for an entry whose
`domain` field equals the requested domain (exact, hence case-sensitive, string
equality) and returns that first matching entry's `id`; if no entry matches it
returns `none`. -/
theorem claim8_website_id_resolution (records : List WebsiteRecord)
    (rest : ToolContent) (domain : String) :
    ((∀ w ∈ records, w.domain ≠ some domain) →
      get_website_id_from_domain
        (⟨some (JsonText.websites ⟨some records⟩)⟩ :: rest) domain = none) ∧
    (∀ pre w post, records = pre ++ w :: post →
      (∀ v ∈ pre, v.domain ≠ some domain) → w.domain = some domain →
      get_website_id_from_domain
        (⟨some (JsonText.websites ⟨some records⟩)⟩ :: rest) domain = w.id) := by
  constructor
  · intro h
    show findId records domain = none
    exact findId_eq_none h
  · intro pre w post hsplit hpre hw
    show findId records domain = w.id
    rw [hsplit]
    exact findId_first pre w post hpre hw

/-- The two-record website list of the spec's resolution example. -/
def demoRecords : List WebsiteRecord :=
  [⟨some "a.com", some "1"⟩, ⟨some "b.com", some "2"⟩]

/-- The example website list wrapped in the text/JSON content envelope. -/
def demoContent : ToolContent :=
  [⟨some (JsonText.websites ⟨some demoRecords⟩)⟩]

/-- C8, witness: on `[{domain:"a.com",id:"1"},{domain:"b.com",id:"2"}]` the
resolution of `"b.com"` yields `"2"`, `"c.com"` yields none, and the match is
case-sensitive: `"B.com"` also yields none. -/
theorem claim8_witness :
    get_website_id_from_domain demoContent "b.com" = some "2" ∧
    get_website_id_from_domain demoContent "c.com" = none ∧
    get_website_id_from_domain demoContent "B.com" = none :=
  ⟨(claim8_website_id_resolution demoRecords [] "b.com").2
      [⟨some "a.com", some "1"⟩] ⟨some "b.com", some "2"⟩ [] rfl (by decide) rfl,
   (claim8_website_id_resolution demoRecords [] "c.com").1 (by decide),
   (claim8_website_id_resolution demoRecords [] "B.com").1 (by decide)⟩

/-- Websites content resolving `example.com` to id `site-1`. -/
def exWebsitesContent : ToolContent :=
  [⟨some (JsonText.websites ⟨some [⟨some "example.com", some "site-1"⟩]⟩)⟩]

/-- A session advertising every tool where every metric type fails except
`device`. -/
def sessDeviceOnly : Session :=
  ⟨Except.ok allTools,
   fun name args =>
     if name == "get_websites" then Except.ok exWebsitesContent
     else if name == "get_website_metrics" then
       (if args.contains ("type", "device") then Except.ok []
        else Except.error "metric type failed")
     else Except.ok []⟩

/-- C3, counterexample.  The code's metric-type priority list contains `device`
between `os` and `country`, which the claimed order `url, referrer, browser, os,
country` omits: with every claimed type failing and `device` succeeding, the
snapshot stores `metrics_device` — a key the claimed ordering can never produce —
`country` is never reached (no `metrics_country`, and only 5 metric calls were
attempted: url, referrer, browser, os, device). -/
theorem claim3_counterexample :
    hasKey (get_real_data_from_mcp sessDeviceOnly "example.com" "2025-06-01"
      "2025-07-01" "UTC").1 "metrics_device" = true ∧
    hasKey (get_real_data_from_mcp sessDeviceOnly "example.com" "2025-06-01"
      "2025-07-01" "UTC").1 "metrics_country" = false ∧
    ((get_real_data_from_mcp sessDeviceOnly "example.com" "2025-06-01"
      "2025-07-01" "UTC").2.filter (fun c => c.1 == "get_website_metrics")).length = 5 := by
  refine ⟨by decide, by decide, by decide⟩

/-- C3, amended.  The collector attempts metric types in the fixed priority
order url, referrer, browser, os, device, country, keeps only the first type
that succeeds and attempts no later types: whenever `get_website_metrics` is
advertised, the website id was resolved, the `url` attempt fails and the
`referrer` attempt succeeds, the snapshot contains `metrics_referrer`, no
`metrics_url`, no `metrics_<t>` for any later type, and no
`get_website_metrics` call beyond the url and referrer ones was ever made. -/
theorem claim3_amended_first_success_metric (sess : Session)
    (wd sd ed tz wid : String) (avail : List String) (cw cr : ToolContent)
    (eu : String)
    (hlt : sess.list_tools = Except.ok avail)
    (hm : "get_website_metrics" ∈ avail)
    (hhtml : "get_html" ∈ avail → ∃ c, sess.call_tool "get_html" [] = Except.ok c)
    (hwm : "get_websites" ∈ avail)
    (hwcall : sess.call_tool "get_websites" [] = Except.ok cw)
    (hres : get_website_id_from_domain cw wd = some wid)
    (hwid : wid ≠ "")
    (hurl : sess.call_tool "get_website_metrics" (metricsArgs wid sd ed "url") =
      Except.error eu)
    (href : sess.call_tool "get_website_metrics" (metricsArgs wid sd ed "referrer") =
      Except.ok cr) :
    hasKey (get_real_data_from_mcp sess wd sd ed tz).1 "metrics_referrer" = true ∧
    hasKey (get_real_data_from_mcp sess wd sd ed tz).1 "metrics_url" = false ∧
    (∀ t ∈ (["browser", "os", "device", "country"] : List String),
      hasKey (get_real_data_from_mcp sess wd sd ed tz).1 ("metrics_" ++ t) = false) ∧
    (∀ args, ("get_website_metrics", args) ∈ (get_real_data_from_mcp sess wd sd ed tz).2 →
      args = metricsArgs wid sd ed "url" ∨ args = metricsArgs wid sd ed "referrer") := by
  have hbe : (wid == "") = false := by
    rw [beq_eq_false_iff_ne]
    exact hwid
  unfold get_real_data_from_mcp
  rw [hlt]
  dsimp only
  cases hh : html_step sess avail
      (seed_data wd sd ed tz ++ [("available_tools", Val.tools avail)]) with
  | error out =>
    obtain ⟨e, _, hmem, herr⟩ := html_step_error_shape hh
    obtain ⟨c0, hc0⟩ := hhtml hmem
    rw [herr] at hc0
    cases hc0
  | ok out1 =>
    obtain ⟨ext1, hd1, hks1, hnm1⟩ := html_step_ok_shape hh
    rcases out1 with ⟨d1, tr1⟩
    simp only at hd1 hnm1
    subst hd1
    have hw : websites_step sess avail wd
        (seed_data wd sd ed tz ++ [("available_tools", Val.tools avail)] ++ ext1) tr1 =
        Except.ok
          (seed_data wd sd ed tz ++ [("available_tools", Val.tools avail)] ++ ext1 ++
            [("websites", Val.content cw)] ++ [("website_id", Val.str wid)],
           tr1 ++ [("get_websites", [])]) := by
      unfold websites_step
      rw [if_pos hwm, hwcall]
      dsimp only
      rw [hres]
      dsimp only
      rw [hbe]
      simp
    dsimp only
    rw [hw]
    dsimp only
    have hkpre : hasKey
        (seed_data wd sd ed tz ++ [("available_tools", Val.tools avail)] ++ ext1 ++
          [("websites", Val.content cw)]) "website_id" = false := by
      rw [hasKey_append, hasKey_append, hasKey_append,
        seed_hasKey_false wd sd ed tz (by decide) (by decide) (by decide),
        hasKey_single_ne _ (by decide), hks1 _ (by decide),
        hasKey_single_ne _ (by decide)]
      rfl
    have hwidchk : wid_check
        (seed_data wd sd ed tz ++ [("available_tools", Val.tools avail)] ++ ext1 ++
          [("websites", Val.content cw)] ++ [("website_id", Val.str wid)]) =
        some wid := by
      unfold wid_check
      rw [lookupVal_append, lookupVal_eq_none_of_hasKey_false hkpre]
      simp [lookupVal, hbe]
    rw [hwidchk]
    dsimp only
    unfold collect_tail
    dsimp only
    obtain ⟨e1, t1, hs, hkse1, _, htn1⟩ := stats_step_shape sess avail wid sd ed
      (seed_data wd sd ed tz ++ [("available_tools", Val.tools avail)] ++ ext1 ++
        [("websites", Val.content cw)] ++ [("website_id", Val.str wid)])
      (tr1 ++ [("get_websites", [])])
    rw [hs]
    dsimp only
    obtain ⟨e2, t2, hpv, hkse2, _, htn2⟩ := pageview_step_shape sess avail wid sd ed tz
      (seed_data wd sd ed tz ++ [("available_tools", Val.tools avail)] ++ ext1 ++
        [("websites", Val.content cw)] ++ [("website_id", Val.str wid)] ++ e1)
      (tr1 ++ [("get_websites", [])] ++ t1)
    rw [hpv]
    dsimp only
    have htm : try_metrics sess wid sd ed metric_types =
        (some ("referrer", cr),
         [("get_website_metrics", metricsArgs wid sd ed "url"),
          ("get_website_metrics", metricsArgs wid sd ed "referrer")]) := by
      simp only [metric_types, try_metrics, hurl, href]
    have hmet : ∀ (d : Snapshot) (tr : List ToolCall),
        metrics_step sess avail wid sd ed d tr =
          (d ++ [("metrics_" ++ "referrer", Val.content cr)],
           tr ++ [("get_website_metrics", metricsArgs wid sd ed "url"),
                  ("get_website_metrics", metricsArgs wid sd ed "referrer")]) := by
      intro d tr
      unfold metrics_step
      rw [if_pos hm, htm]
    rw [hmet]
    dsimp only
    obtain ⟨e4, t4, ha, hkse4, _, htn4⟩ := active_step_shape sess avail wid
      (seed_data wd sd ed tz ++ [("available_tools", Val.tools avail)] ++ ext1 ++
        [("websites", Val.content cw)] ++ [("website_id", Val.str wid)] ++ e1 ++ e2 ++
        [("metrics_" ++ "referrer", Val.content cr)])
      (tr1 ++ [("get_websites", [])] ++ t1 ++ t2 ++
        [("get_website_metrics", metricsArgs wid sd ed "url"),
         ("get_website_metrics", metricsArgs wid sd ed "referrer")])
    rw [ha]
    dsimp only
    have habs : ∀ k, k ≠ "website_domain" → k ≠ "date_range" → k ≠ "timezone" →
        k ≠ "available_tools" → k ≠ "html" → k ≠ "websites" → k ≠ "website_id" →
        k ≠ "website_stats" → k ≠ "stats_error" → k ≠ "pageview_series" →
        k ≠ "pageview_error" → k ≠ "metrics_" ++ "referrer" →
        k ≠ "active_visitors" → k ≠ "active_visitors_error" →
        hasKey
          (seed_data wd sd ed tz ++ [("available_tools", Val.tools avail)] ++ ext1 ++
            [("websites", Val.content cw)] ++ [("website_id", Val.str wid)] ++ e1 ++ e2 ++
            [("metrics_" ++ "referrer", Val.content cr)] ++ e4) k = false := by
      intro k q1 q2 q3 q4 q5 q6 q7 q8 q9 q10 q11 q12 q13 q14
      rw [hasKey_append, hasKey_append, hasKey_append, hasKey_append, hasKey_append,
        hasKey_append, hasKey_append, hasKey_append,
        seed_hasKey_false wd sd ed tz q1 q2 q3, hasKey_single_ne _ q4, hks1 _ q5,
        hasKey_single_ne _ q6, hasKey_single_ne _ q7, hkse1 _ q8 q9, hkse2 _ q10 q11,
        hasKey_single_ne _ q12, hkse4 _ q13 q14]
      rfl
    refine ⟨?_, ?_, ?_, ?_⟩
    · have hkey : ("metrics_" ++ "referrer" : String) = "metrics_referrer" := by decide
      rw [hasKey_append, hasKey_append, hkey, hasKey_single_self]
      simp
    · exact habs "metrics_url" (by decide) (by decide) (by decide) (by decide)
        (by decide) (by decide) (by decide) (by decide) (by decide) (by decide)
        (by decide) (by decide) (by decide) (by decide)
    · intro t ht
      simp at ht
      rcases ht with rfl | rfl | rfl | rfl <;>
        exact habs _ (by decide) (by decide) (by decide) (by decide)
          (by decide) (by decide) (by decide) (by decide) (by decide) (by decide)
          (by decide) (by decide) (by decide) (by decide)
    · intro args hmemtr
      simp only [List.mem_append, List.mem_cons, List.mem_singleton] at hmemtr
      rcases hmemtr with ((((hc | (hc | hnil)) | hc) | hc) | (hc | (hc | hnil))) | hc
      · exact absurd (show ("get_website_metrics" : String) = "get_html" from
          hnm1 _ hc) (by decide)
      · exact absurd (show ("get_website_metrics" : String) = "get_websites" from
          congrArg Prod.fst hc) (by decide)
      · cases hnil
      · exact absurd (show ("get_website_metrics" : String) = "get_website_stats" from
          htn1 _ hc) (by decide)
      · exact absurd (show ("get_website_metrics" : String) = "get_pageview_series" from
          htn2 _ hc) (by decide)
      · exact Or.inl (congrArg Prod.snd hc)
      · exact Or.inr (congrArg Prod.snd hc)
      · cases hnil
      · exact absurd (show ("get_website_metrics" : String) = "get_active_visitors" from
          htn4 _ hc) (by decide)

/-- A session where the `url` metric type fails and every other one succeeds. -/
def sessReferrer : Session :=
  ⟨Except.ok allTools,
   fun name args =>
     if name == "get_websites" then Except.ok exWebsitesContent
     else if name == "get_website_metrics" then
       (if args.contains ("type", "url") then Except.error "url metrics failed"
        else Except.ok [])
     else Except.ok []⟩

/-- C3, witness for the amended theorem: url fails, referrer succeeds — the
snapshot gets `metrics_referrer` only, and only the url and referrer calls were
made. -/
theorem claim3_amended_witness :
    hasKey (get_real_data_from_mcp sessReferrer "example.com" "2025-06-01"
      "2025-07-01" "UTC").1 "metrics_referrer" = true ∧
    hasKey (get_real_data_from_mcp sessReferrer "example.com" "2025-06-01"
      "2025-07-01" "UTC").1 "metrics_url" = false ∧
    (∀ t ∈ (["browser", "os", "device", "country"] : List String),
      hasKey (get_real_data_from_mcp sessReferrer "example.com" "2025-06-01"
        "2025-07-01" "UTC").1 ("metrics_" ++ t) = false) ∧
    (∀ args, ("get_website_metrics", args) ∈
        (get_real_data_from_mcp sessReferrer "example.com" "2025-06-01"
          "2025-07-01" "UTC").2 →
      args = metricsArgs "site-1" "2025-06-01" "2025-07-01" "url" ∨
      args = metricsArgs "site-1" "2025-06-01" "2025-07-01" "referrer") :=
  claim3_amended_first_success_metric sessReferrer "example.com" "2025-06-01"
    "2025-07-01" "UTC" "site-1" allTools exWebsitesContent [] "url metrics failed"
    rfl (by decide) (fun _ => ⟨[], rfl⟩) (by decide) rfl rfl (by decide) rfl rfl

/-- A session advertising every tool where every metric-type attempt fails. -/
def sessMetricsFail : Session :=
  ⟨Except.ok allTools,
   fun name _ =>
     if name == "get_websites" then Except.ok exWebsitesContent
     else if name == "get_website_metrics" then Except.error "metrics unavailable"
     else Except.ok []⟩

/-- C4, counterexample.  The metrics retrieval category violates the claim: all
six metric-type calls were attempted and failed (the trace shows 6
`get_website_metrics` calls and no `metrics_<type>` key), yet the snapshot
records no `metrics_error` (nor any other sibling error for this category) —
a failed retrieval with no error key. -/
theorem claim4_counterexample :
    ((get_real_data_from_mcp sessMetricsFail "example.com" "2025-06-01"
      "2025-07-01" "UTC").2.filter (fun c => c.1 == "get_website_metrics")).length = 6 ∧
    (∀ t ∈ metric_types,
      hasKey (get_real_data_from_mcp sessMetricsFail "example.com" "2025-06-01"
        "2025-07-01" "UTC").1 ("metrics_" ++ t) = false) ∧
    hasKey (get_real_data_from_mcp sessMetricsFail "example.com" "2025-06-01"
      "2025-07-01" "UTC").1 "metrics_error" = false := by
  refine ⟨by decide, by decide, by decide⟩

/-- C4, amended.  The html, websites, stats and active-visitors categories do
record sibling error keys on failure (`html_error`, `websites_error`,
`stats_error`, `active_visitors_error`), and a stats failure does not abort the
pass (pageview data is still collected afterwards) — but the metrics category is
the exception: failed metric-type attempts are silently skipped, and even when
all six types fail no `metrics_error` (nor any `metrics_<type>`) entry is
recorded, although the six calls were attempted. -/
theorem claim4_amended_error_recording (sess : Session) (wd sd ed tz wid : String)
    (avail : List String) (ch cw cp : ToolContent) (es ea : String)
    (errf : String → String)
    (hlt : sess.list_tools = Except.ok avail)
    (h1 : "get_html" ∈ avail) (h2 : "get_websites" ∈ avail)
    (h3 : "get_website_stats" ∈ avail) (h4 : "get_pageview_series" ∈ avail)
    (h5 : "get_website_metrics" ∈ avail) (h6 : "get_active_visitors" ∈ avail)
    (hhtml : sess.call_tool "get_html" [] = Except.ok ch)
    (hwcall : sess.call_tool "get_websites" [] = Except.ok cw)
    (hres : get_website_id_from_domain cw wd = some wid) (hwid : wid ≠ "")
    (hstats : sess.call_tool "get_website_stats"
      [("website_id", wid), ("start_at", sd), ("end_at", ed)] = Except.error es)
    (hpv : sess.call_tool "get_pageview_series"
      [("website_id", wid), ("start_at", sd), ("end_at", ed), ("unit", "day"),
       ("timezone", tz)] = Except.ok cp)
    (hmetf : ∀ t, sess.call_tool "get_website_metrics" (metricsArgs wid sd ed t) =
      Except.error (errf t))
    (hact : sess.call_tool "get_active_visitors" [("website_id", wid)] =
      Except.error ea) :
    get_real_data_from_mcp sess wd sd ed tz =
      (seed_data wd sd ed tz ++
        [("available_tools", Val.tools avail), ("html", Val.content ch),
         ("websites", Val.content cw), ("website_id", Val.str wid),
         ("stats_error", Val.str es), ("pageview_series", Val.content cp),
         ("active_visitors_error", Val.str ea)],
       [("get_html", []), ("get_websites", []),
        ("get_website_stats", [("website_id", wid), ("start_at", sd), ("end_at", ed)]),
        ("get_pageview_series",
          [("website_id", wid), ("start_at", sd), ("end_at", ed), ("unit", "day"),
           ("timezone", tz)]),
        ("get_website_metrics", metricsArgs wid sd ed "url"),
        ("get_website_metrics", metricsArgs wid sd ed "referrer"),
        ("get_website_metrics", metricsArgs wid sd ed "browser"),
        ("get_website_metrics", metricsArgs wid sd ed "os"),
        ("get_website_metrics", metricsArgs wid sd ed "device"),
        ("get_website_metrics", metricsArgs wid sd ed "country"),
        ("get_active_visitors", [("website_id", wid)])]) ∧
    hasKey (get_real_data_from_mcp sess wd sd ed tz).1 "metrics_error" = false ∧
    (∀ t ∈ metric_types,
      hasKey (get_real_data_from_mcp sess wd sd ed tz).1 ("metrics_" ++ t) = false) := by
  have hbe : (wid == "") = false := by
    rw [beq_eq_false_iff_ne]
    exact hwid
  have hmain : get_real_data_from_mcp sess wd sd ed tz =
      (seed_data wd sd ed tz ++
        [("available_tools", Val.tools avail), ("html", Val.content ch),
         ("websites", Val.content cw), ("website_id", Val.str wid),
         ("stats_error", Val.str es), ("pageview_series", Val.content cp),
         ("active_visitors_error", Val.str ea)],
       [("get_html", []), ("get_websites", []),
        ("get_website_stats", [("website_id", wid), ("start_at", sd), ("end_at", ed)]),
        ("get_pageview_series",
          [("website_id", wid), ("start_at", sd), ("end_at", ed), ("unit", "day"),
           ("timezone", tz)]),
        ("get_website_metrics", metricsArgs wid sd ed "url"),
        ("get_website_metrics", metricsArgs wid sd ed "referrer"),
        ("get_website_metrics", metricsArgs wid sd ed "browser"),
        ("get_website_metrics", metricsArgs wid sd ed "os"),
        ("get_website_metrics", metricsArgs wid sd ed "device"),
        ("get_website_metrics", metricsArgs wid sd ed "country"),
        ("get_active_visitors", [("website_id", wid)])]) := by
    unfold get_real_data_from_mcp
    rw [hlt]
    dsimp only
    have hh : html_step sess avail
        (seed_data wd sd ed tz ++ [("available_tools", Val.tools avail)]) =
        Except.ok (seed_data wd sd ed tz ++ [("available_tools", Val.tools avail)] ++
          [("html", Val.content ch)], [("get_html", [])]) := by
      unfold html_step
      rw [if_pos h1, hhtml]
    rw [hh]
    dsimp only
    have hw : websites_step sess avail wd
        (seed_data wd sd ed tz ++ [("available_tools", Val.tools avail)] ++
          [("html", Val.content ch)]) [("get_html", [])] =
        Except.ok (seed_data wd sd ed tz ++ [("available_tools", Val.tools avail)] ++
          [("html", Val.content ch)] ++ [("websites", Val.content cw)] ++
          [("website_id", Val.str wid)],
          [("get_html", [])] ++ [("get_websites", [])]) := by
      unfold websites_step
      rw [if_pos h2, hwcall]
      dsimp only
      rw [hres]
      dsimp only
      rw [hbe]
      simp
    rw [hw]
    dsimp only
    have hkpre : hasKey (seed_data wd sd ed tz ++ [("available_tools", Val.tools avail)] ++
        [("html", Val.content ch)] ++ [("websites", Val.content cw)]) "website_id" = false := by
      simp [seed_data, hasKey]
    have hwidchk : wid_check
        (seed_data wd sd ed tz ++ [("available_tools", Val.tools avail)] ++
          [("html", Val.content ch)] ++ [("websites", Val.content cw)] ++
          [("website_id", Val.str wid)]) = some wid := by
      unfold wid_check
      rw [lookupVal_append, lookupVal_eq_none_of_hasKey_false hkpre]
      simp [lookupVal, hbe]
    rw [hwidchk]
    dsimp only
    unfold collect_tail
    dsimp only
    have hstg : ∀ (d : Snapshot) (tr : List ToolCall),
        stats_step sess avail wid sd ed d tr =
          (d ++ [("stats_error", Val.str es)],
           tr ++ [("get_website_stats",
             [("website_id", wid), ("start_at", sd), ("end_at", ed)])]) := by
      intro d tr
      unfold stats_step
      rw [if_pos h3]
      dsimp only
      rw [hstats]
    rw [hstg]
    dsimp only
    have hpvg : ∀ (d : Snapshot) (tr : List ToolCall),
        pageview_step sess avail wid sd ed tz d tr =
          (d ++ [("pageview_series", Val.content cp)],
           tr ++ [("get_pageview_series",
             [("website_id", wid), ("start_at", sd), ("end_at", ed), ("unit", "day"),
              ("timezone", tz)])]) := by
      intro d tr
      unfold pageview_step
      rw [if_pos h4]
      dsimp only
      rw [hpv]
    rw [hpvg]
    dsimp only
    have htm : try_metrics sess wid sd ed metric_types =
        (none,
         [("get_website_metrics", metricsArgs wid sd ed "url"),
          ("get_website_metrics", metricsArgs wid sd ed "referrer"),
          ("get_website_metrics", metricsArgs wid sd ed "browser"),
          ("get_website_metrics", metricsArgs wid sd ed "os"),
          ("get_website_metrics", metricsArgs wid sd ed "device"),
          ("get_website_metrics", metricsArgs wid sd ed "country")]) := by
      simp only [metric_types, try_metrics, hmetf]
    have hmetg : ∀ (d : Snapshot) (tr : List ToolCall),
        metrics_step sess avail wid sd ed d tr =
          (d, tr ++ [("get_website_metrics", metricsArgs wid sd ed "url"),
            ("get_website_metrics", metricsArgs wid sd ed "referrer"),
            ("get_website_metrics", metricsArgs wid sd ed "browser"),
            ("get_website_metrics", metricsArgs wid sd ed "os"),
            ("get_website_metrics", metricsArgs wid sd ed "device"),
            ("get_website_metrics", metricsArgs wid sd ed "country")]) := by
      intro d tr
      unfold metrics_step
      rw [if_pos h5, htm]
    rw [hmetg]
    dsimp only
    have hactg : ∀ (d : Snapshot) (tr : List ToolCall),
        active_step sess avail wid d tr =
          (d ++ [("active_visitors_error", Val.str ea)],
           tr ++ [("get_active_visitors", [("website_id", wid)])]) := by
      intro d tr
      unfold active_step
      rw [if_pos h6]
      dsimp only
      rw [hact]
    rw [hactg]
    simp [seed_data, List.append_assoc]
  refine ⟨hmain, ?_, ?_⟩
  · rw [hmain]
    dsimp only
    simp [seed_data, hasKey]
  · intro t ht
    simp [metric_types] at ht
    rcases ht with rfl | rfl | rfl | rfl | rfl | rfl <;>
      · rw [hmain]
        dsimp only
        simp [seed_data, hasKey]

/-- A session where stats, all metric types and active visitors fail while html,
websites and pageviews succeed. -/
def sessMixed : Session :=
  ⟨Except.ok allTools,
   fun name _ =>
     if name == "get_websites" then Except.ok exWebsitesContent
     else if name == "get_website_metrics" then Except.error "metrics unavailable"
     else if name == "get_website_stats" then Except.error "stats down"
     else if name == "get_active_visitors" then Except.error "visitors down"
     else Except.ok []⟩

/-- C4, witness for the amended theorem: stats and active-visitors failures are
recorded as error keys, the pass continues past them, and the six failed metric
attempts leave no key at all. -/
theorem claim4_amended_witness :
    get_real_data_from_mcp sessMixed "example.com" "2025-06-01" "2025-07-01" "UTC" =
      (seed_data "example.com" "2025-06-01" "2025-07-01" "UTC" ++
        [("available_tools", Val.tools allTools), ("html", Val.content []),
         ("websites", Val.content exWebsitesContent), ("website_id", Val.str "site-1"),
         ("stats_error", Val.str "stats down"), ("pageview_series", Val.content []),
         ("active_visitors_error", Val.str "visitors down")],
       [("get_html", []), ("get_websites", []),
        ("get_website_stats",
          [("website_id", "site-1"), ("start_at", "2025-06-01"), ("end_at", "2025-07-01")]),
        ("get_pageview_series",
          [("website_id", "site-1"), ("start_at", "2025-06-01"), ("end_at", "2025-07-01"),
           ("unit", "day"), ("timezone", "UTC")]),
        ("get_website_metrics", metricsArgs "site-1" "2025-06-01" "2025-07-01" "url"),
        ("get_website_metrics", metricsArgs "site-1" "2025-06-01" "2025-07-01" "referrer"),
        ("get_website_metrics", metricsArgs "site-1" "2025-06-01" "2025-07-01" "browser"),
        ("get_website_metrics", metricsArgs "site-1" "2025-06-01" "2025-07-01" "os"),
        ("get_website_metrics", metricsArgs "site-1" "2025-06-01" "2025-07-01" "device"),
        ("get_website_metrics", metricsArgs "site-1" "2025-06-01" "2025-07-01" "country"),
        ("get_active_visitors", [("website_id", "site-1")])]) :=
  (claim4_amended_error_recording sessMixed "example.com" "2025-06-01" "2025-07-01"
    "UTC" "site-1" allTools [] exWebsitesContent [] "stats down" "visitors down"
    (fun _ => "metrics unavailable") rfl (by decide) (by decide) (by decide)
    (by decide) (by decide) (by decide) rfl rfl rfl (by decide) rfl rfl
    (fun _ => rfl) rfl).1

/-! ## Chat-loop claims -/

/-- C9, counterexample.  The raw input `"QUIT"` is none of `"quit"`, `"exit"`,
`"q"`, `""`, yet the iteration terminates without invoking generation, because
the check lowercases the stripped input first — refuting "any other input
invokes exactly one generate call". -/
theorem claim9_counterexample :
    chat_iteration [] cfgValid netAlwaysOk ollSucceeds "QUIT" =
      (ChatEvent.terminated, []) ∧
    ("QUIT" : String) ∉ (["quit", "exit", "q", ""] : List String) :=
  ⟨rfl, by decide⟩

/-- C9, amended.  In each chat-loop iteration, an input whose stripped and
lowercased form is `"quit"`, `"exit"`, `"q"` or the empty string terminates the
loop without invoking generation; any other input invokes exactly one generate
call, on the chat prompt rendered from the stripped input and the current
snapshot, and the generated result is printed with its provider tag. -/
theorem claim9_amended_chat_iteration (snap : Snapshot) (cfg : AIConfig)
    (net : String → Except String CFResponse) (oll : String → OllamaOutcome)
    (raw : String) :
    (["quit", "exit", "q", ""].contains (pyLower (pyStrip raw)) = true →
      chat_iteration snap cfg net oll raw = (ChatEvent.terminated, [])) ∧
    (["quit", "exit", "q", ""].contains (pyLower (pyStrip raw)) = false →
      (chat_iteration snap cfg net oll raw).2 =
        [create_chat_prompt (pyStrip raw) snap] ∧
      ∀ resp prov, call_ai_with_fallback cfg net oll
          (create_chat_prompt (pyStrip raw) snap) = Except.ok (resp, prov) →
        (chat_iteration snap cfg net oll raw).1 =
          ChatEvent.printedResponse prov resp) := by
  constructor
  · intro h
    unfold chat_iteration
    rw [if_pos h]
  · intro h
    have hcond : ¬ (["quit", "exit", "q", ""].contains (pyLower (pyStrip raw)) = true) := by
      rw [h]
      exact Bool.false_ne_true
    constructor
    · unfold chat_iteration
      rw [if_neg hcond]
      dsimp only
      cases hr : call_ai_with_fallback cfg net oll
          (create_chat_prompt (pyStrip raw) snap) with
      | ok p =>
        rcases p with ⟨resp, prov⟩
        rfl
      | error e => rfl
    · intro resp prov hok
      unfold chat_iteration
      rw [if_neg hcond]
      dsimp only
      rw [hok]

/-- C9, witness for the amended theorem: a non-terminating input makes exactly
one generate call on the rendered prompt and prints the hosted backend's
answer. -/
theorem claim9_amended_witness :
    (chat_iteration [] cfgValid netAlwaysOk ollSucceeds "how is traffic").2 =
      [create_chat_prompt "how is traffic" []] ∧
    (chat_iteration [] cfgValid netAlwaysOk ollSucceeds "how is traffic").1 =
      ChatEvent.printedResponse "cloudflare" "cf-text" := by
  have h := (claim9_amended_chat_iteration [] cfgValid netAlwaysOk ollSucceeds
    "how is traffic").2 (by decide)
  exact ⟨h.1, h.2 "cf-text" "cloudflare" rfl⟩

/-- C10.  The chat-loop termination check strips surrounding whitespace and
lowercases the input before comparison, so any input whose stripped, lowercased
form is one of the terminators ends the loop without generation, and for every
other input the question embedded in the prompt is the stripped — but not
lowercased — text. -/
theorem claim10_strip_lower_preprocessing (snap : Snapshot) (cfg : AIConfig)
    (net : String → Except String CFResponse) (oll : String → OllamaOutcome)
    (raw : String) :
    (pyLower (pyStrip raw) ∈ (["quit", "exit", "q", ""] : List String) →
      chat_iteration snap cfg net oll raw = (ChatEvent.terminated, [])) ∧
    (pyLower (pyStrip raw) ∉ (["quit", "exit", "q", ""] : List String) →
      (chat_iteration snap cfg net oll raw).2 =
        [create_chat_prompt (pyStrip raw) snap]) := by
  constructor
  · intro h
    have hb : ["quit", "exit", "q", ""].contains (pyLower (pyStrip raw)) = true := by
      simpa using h
    unfold chat_iteration
    rw [if_pos hb]
  · intro h
    have hb : ¬ (["quit", "exit", "q", ""].contains (pyLower (pyStrip raw)) = true) := by
      simpa using h
    unfold chat_iteration
    rw [if_neg hb]
    dsimp only
    cases hr : call_ai_with_fallback cfg net oll
        (create_chat_prompt (pyStrip raw) snap) with
    | ok p =>
      rcases p with ⟨resp, prov⟩
      rfl
    | error e => rfl

/-- C10, witness: `"QUIT"`, `"Exit"`, `"  q  "` and a line of spaces all
terminate without generation, and the mixed-case input `" What about May? "`
embeds the stripped, unlowercased question `"What about May?"`. -/
theorem claim10_witness :
    chat_iteration [] cfgValid netAlwaysOk ollSucceeds "QUIT" =
      (ChatEvent.terminated, []) ∧
    chat_iteration [] cfgValid netAlwaysOk ollSucceeds "Exit" =
      (ChatEvent.terminated, []) ∧
    chat_iteration [] cfgValid netAlwaysOk ollSucceeds "  q  " =
      (ChatEvent.terminated, []) ∧
    chat_iteration [] cfgValid netAlwaysOk ollSucceeds "   " =
      (ChatEvent.terminated, []) ∧
    (chat_iteration [] cfgValid netAlwaysOk ollSucceeds " What about May? ").2 =
      [create_chat_prompt "What about May?" []] :=
  ⟨(claim10_strip_lower_preprocessing [] cfgValid netAlwaysOk ollSucceeds "QUIT").1
      (by decide),
   (claim10_strip_lower_preprocessing [] cfgValid netAlwaysOk ollSucceeds "Exit").1
      (by decide),
   (claim10_strip_lower_preprocessing [] cfgValid netAlwaysOk ollSucceeds "  q  ").1
      (by decide),
   (claim10_strip_lower_preprocessing [] cfgValid netAlwaysOk ollSucceeds "   ").1
      (by decide),
   (claim10_strip_lower_preprocessing [] cfgValid netAlwaysOk ollSucceeds
      " What about May? ").2 (by decide)⟩

end UmamiDash
